import Mathlib

/-!
Shallow embedding of the section-generation workflow of `src/app.py`
(an AI business-plan generator).

The program keeps all workflow state in a session object:
`step : Int` (-1 = not started, 0..N-1 = active section, N = completed),
five business-profile text fields, a word document `doc`, and
`section_contents`, a list of N strings.  The UI exposes five commands,
each gated by the render conditions of the corresponding button:

* Start Generating  (shown when `step == -1`): sets `step = 0`, generates
  content for section 0 and stores it at index 0 (`app.py` lines 78-82);
* Previous Section  (shown when `step > 0` inside the section UI, which
  itself renders only for `0 ≤ step < N`): decrements `step`
  (lines 101-103);
* Next Section      (shown when `step < N-1` inside the section UI):
  increments `step`, generates for the new section and overwrites its
  slot (lines 105-109);
* Complete          (the else-branch of the Next button, i.e.
  `¬(step < N-1)`, inside the section UI): sets `step = N` (lines 110-112);
* Start Over        (shown when `step ≥ N` in `completion_ui`): sets
  `step = -1` and nothing else (lines 153-154).

The external text-generation call is modelled by an oracle result
(`GenResult`) supplied with each generating command:
`generate_section_content` (lines 114-134) on success returns the content
and appends a heading+paragraph pair to the document
(`add_section_to_document`, lines 136-138); on failure it surfaces an
error message and returns the empty string, appending nothing.
-/

namespace BizPlan

/-- The fixed section template of `app.py` (`SECTIONS_TEMPLATE`, lines 6-16). -/
def SECTIONS_TEMPLATE : List String :=
  ["Executive Summary",
   "Company Description",
   "Market Analysis",
   "Organization & Management",
   "Service or Product Line",
   "Marketing & Sales",
   "Funding Request",
   "Financial Projections",
   "Appendix"]

/-- One item of the python-docx document: `add_heading(text, level)` or
`add_paragraph(text)`. -/
inductive DocItem where
  | heading (text : String) (level : Nat)
  | paragraph (text : String)
deriving DecidableEq

/-- The session state of `app.py` (`init_session_state`, lines 51-63):
the workflow position, the five business-profile fields, the document,
and the per-section contents. -/
structure AppState where
  step : Int
  business_name : String
  industry : String
  core_product : String
  problem_solved : String
  additional_info : String
  doc : List DocItem
  section_contents : List String
deriving DecidableEq

/-- Model of `init_session_state` (lines 51-63): `step = -1`, empty profile fields,
a fresh document holding only the title heading, and one empty content
slot per template section. -/
def init_session_state (sections : List String) : AppState :=
  { step := -1
    business_name := ""
    industry := ""
    core_product := ""
    problem_solved := ""
    additional_info := ""
    doc := [DocItem.heading "Business Plan" 0]
    section_contents := List.replicate sections.length "" }

/-- Outcome of the external `openai.ChatCompletion.create` call, supplied
as an oracle: either the generated text or the exception message. -/
inductive GenResult where
  | ok (content : String)
  | err (msg : String)
deriving DecidableEq

/-- Model of `add_section_to_document` (lines 136-138): append a level-1 heading and
a paragraph with the content. -/
def add_section_to_document (doc : List DocItem) (sect content : String) :
    List DocItem :=
  doc ++ [DocItem.heading sect 1, DocItem.paragraph content]

/-- Result of `generate_section_content`: the string it returns, the
document after it ran, and the error message surfaced via `st.error`
(if any). -/
structure GenOutcome where
  text : String
  doc : List DocItem
  error : Option String
deriving DecidableEq

/-- Model of `generate_section_content` (lines 114-134): on success it appends the
section to the document and returns the content; on an exception it shows
the error and returns the empty string, leaving the document unchanged. -/
def generate_section_content (sect : String) (doc : List DocItem) :
    GenResult → GenOutcome
  | GenResult.ok content =>
      { text := content
        doc := add_section_to_document doc sect content
        error := none }
  | GenResult.err msg =>
      { text := ""
        doc := doc
        error := some msg }

/-- The five UI commands; the generating ones carry the oracle outcome of
their external call. -/
inductive Cmd where
  | start (r : GenResult)
  | next (r : GenResult)
  | previous
  | complete
  | reset
deriving DecidableEq

/-- The render condition of each command's button, i.e. when the UI permits
the command.  `previous`, `next` and `complete` live inside
`section_content_ui`, which renders a section only for `0 ≤ step < N`
(lines 87-96); their own conditions are lines 101, 105 and 110. -/
def canRun (sections : List String) (s : AppState) : Cmd → Bool
  | Cmd.start _ => decide (s.step = -1)
  | Cmd.previous =>
      (decide (0 ≤ s.step) && decide (s.step < (sections.length : Int))) &&
        decide (0 < s.step)
  | Cmd.next _ =>
      (decide (0 ≤ s.step) && decide (s.step < (sections.length : Int))) &&
        decide (s.step < (sections.length : Int) - 1)
  | Cmd.complete =>
      (decide (0 ≤ s.step) && decide (s.step < (sections.length : Int))) &&
        !decide (s.step < (sections.length : Int) - 1)
  | Cmd.reset => decide ((sections.length : Int) ≤ s.step)

/-- Effect of one command on the session state, together with the error
message surfaced during it (if any).  Mirrors `handle_section_generation`
(lines 77-84), `navigation_buttons` (lines 98-112) and `completion_ui`
(lines 152-154): `start` sets `step = 0` and then stores the generation
result at index 0; `next` increments `step` and then stores at the new
index; `previous` only decrements `step`; `complete` sets `step = N`;
`reset` (Start Over) only sets `step = -1`. -/
def stepCmd (sections : List String) (s : AppState) : Cmd → AppState × Option String
  | Cmd.start r =>
      ({ s with
          step := 0
          section_contents :=
            s.section_contents.set 0
              (generate_section_content (sections.getD 0 "") s.doc r).text
          doc := (generate_section_content (sections.getD 0 "") s.doc r).doc },
       (generate_section_content (sections.getD 0 "") s.doc r).error)
  | Cmd.next r =>
      ({ s with
          step := s.step + 1
          section_contents :=
            s.section_contents.set (s.step + 1).toNat
              (generate_section_content (sections.getD (s.step + 1).toNat "")
                s.doc r).text
          doc := (generate_section_content (sections.getD (s.step + 1).toNat "")
                s.doc r).doc },
       (generate_section_content (sections.getD (s.step + 1).toNat "") s.doc r).error)
  | Cmd.previous => ({ s with step := s.step - 1 }, none)
  | Cmd.complete => ({ s with step := (sections.length : Int) }, none)
  | Cmd.reset => ({ s with step := -1 }, none)

/-- The state after one command. -/
def runCmd (sections : List String) (s : AppState) (c : Cmd) : AppState :=
  (stepCmd sections s c).1

/-- The error surfaced by one command, if any. -/
def surfaced (sections : List String) (s : AppState) (c : Cmd) : Option String :=
  (stepCmd sections s c).2

/-- The state after a sequence of commands. -/
def runCmds (sections : List String) : AppState → List Cmd → AppState
  | s, [] => s
  | s, c :: cs => runCmds sections (runCmd sections s c) cs

/-- States reachable from a freshly initialized session: the user may edit
the five profile fields through the form (`input_ui`, lines 65-75) at any
time, and may issue a command whenever its button is rendered. -/
inductive Reachable (sections : List String) : AppState → Prop where
  | init : Reachable sections (init_session_state sections)
  | edit (s : AppState) (bn ind cp ps ai : String) :
      Reachable sections s →
      Reachable sections
        { s with
            business_name := bn
            industry := ind
            core_product := cp
            problem_solved := ps
            additional_info := ai }
  | cmd (s : AppState) (c : Cmd) :
      Reachable sections s → canRun sections s c = true →
      Reachable sections (runCmd sections s c)

/-- Reachability instrumented with the high-water mark of `step`: the pair
`(s, hw)` is derivable when `s` is reachable and `hw` is the maximum value
`step` has attained so far (`-1` at initialization). -/
inductive ReachableHW (sections : List String) : AppState → Int → Prop where
  | init : ReachableHW sections (init_session_state sections) (-1)
  | edit (s : AppState) (hw : Int) (bn ind cp ps ai : String) :
      ReachableHW sections s hw →
      ReachableHW sections
        { s with
            business_name := bn
            industry := ind
            core_product := cp
            problem_solved := ps
            additional_info := ai } hw
  | cmd (s : AppState) (hw : Int) (c : Cmd) :
      ReachableHW sections s hw → canRun sections s c = true →
      ReachableHW sections (runCmd sections s c)
        (max hw (runCmd sections s c).step)

/-- The heading/body entries of the accumulated document: each
`add_section_to_document` call contributes one level-1 heading directly
followed by its paragraph. -/
def docSections : List DocItem → List (String × String)
  | DocItem.heading h 1 :: DocItem.paragraph b :: rest => (h, b) :: docSections rest
  | _ :: rest => docSections rest
  | [] => []

/-- Model of `calculate_progress` (lines 156-158): `max(0, step) / (N - 1)`,
modelled over the rationals. -/
def calculate_progress (sections : List String) (s : AppState) : ℚ :=
  ((max 0 s.step : Int) : ℚ) / ((sections.length : ℚ) - 1)

/-! Helper lemmas -/

theorem getD_set_ne (l : List String) (j i : Nat) (v : String) (hij : i ≠ j) :
    (l.set j v).getD i "" = l.getD i "" := by
  simp [List.getElem?_set_ne (Ne.symm hij)]

theorem getD_set_self (l : List String) (j : Nat) (v : String)
    (h : j < l.length) : (l.set j v).getD j "" = v := by
  simp [List.getElem?_set_self h]

theorem getD_replicate (n i : Nat) : (List.replicate n "").getD i "" = "" := by
  rcases Nat.lt_or_ge i n with h | h
  · simp [List.getElem?_replicate, h]
  · simp [List.getElem?_replicate, Nat.not_lt.mpr h]

/-- The workflow position stays within `{-1, …, N}` on every reachable state. -/
theorem step_range (sections : List String) (s : AppState)
    (h : Reachable sections s) :
    -1 ≤ s.step ∧ s.step ≤ (sections.length : Int) := by
  induction h with
  | init =>
      constructor
      · exact le_refl _
      · show (-1 : Int) ≤ (sections.length : Int)
        omega
  | edit s bn ind cp ps ai hr ih => simpa using ih
  | cmd s c hr hcan ih =>
      cases c with
      | start r =>
          simp only [canRun, decide_eq_true_eq] at hcan
          simp only [runCmd, stepCmd]
          omega
      | next r =>
          simp only [canRun, Bool.and_eq_true, decide_eq_true_eq] at hcan
          simp only [runCmd, stepCmd]
          omega
      | previous =>
          simp only [canRun, Bool.and_eq_true, decide_eq_true_eq] at hcan
          simp only [runCmd, stepCmd]
          omega
      | complete =>
          simp only [runCmd, stepCmd]
          omega
      | reset =>
          simp only [runCmd, stepCmd]
          omega

/-! Claim theorems -/

/-- C1: for every section template of length N ≥ 2 and every sequence of
commands issued only when the state machine permits them, `step` never
leaves {-1, 0, …, N}; `start()` sets `step` from -1 to 0, every `next()`
increases `step` by exactly 1, every `previous()` decreases `step` by
exactly 1, and `complete()` sets `step` from N-1 to N. -/
theorem C1_step_invariant (sections : List String) (hN : 2 ≤ sections.length)
    (s : AppState) (hs : Reachable sections s) :
    (-1 ≤ s.step ∧ s.step ≤ (sections.length : Int)) ∧
    (∀ r, canRun sections s (Cmd.start r) = true →
      s.step = -1 ∧ (runCmd sections s (Cmd.start r)).step = 0) ∧
    (∀ r, canRun sections s (Cmd.next r) = true →
      (runCmd sections s (Cmd.next r)).step = s.step + 1) ∧
    (canRun sections s Cmd.previous = true →
      (runCmd sections s Cmd.previous).step = s.step - 1) ∧
    (canRun sections s Cmd.complete = true →
      s.step = (sections.length : Int) - 1 ∧
      (runCmd sections s Cmd.complete).step = (sections.length : Int)) := by
  refine ⟨step_range sections s hs, ?_, ?_, ?_, ?_⟩
  · intro r hcan
    simp only [canRun, decide_eq_true_eq] at hcan
    exact ⟨hcan, rfl⟩
  · intro r hcan
    simp only [runCmd, stepCmd]
  · intro hcan
    simp only [runCmd, stepCmd]
  · intro hcan
    simp only [canRun, Bool.and_eq_true, Bool.not_eq_true', decide_eq_true_eq,
      decide_eq_false_iff_not] at hcan
    refine ⟨?_, rfl⟩
    omega

/-- Witness for C1 at the two-section template and the initial state. -/
theorem C1_step_invariant_witness :
    2 ≤ (["A", "B"] : List String).length ∧
    (-1 ≤ (init_session_state ["A", "B"]).step ∧
      (init_session_state ["A", "B"]).step ≤
        (((["A", "B"] : List String).length : Int))) :=
  ⟨by decide,
    (C1_step_invariant ["A", "B"] (by decide) (init_session_state ["A", "B"])
      Reachable.init).1⟩

/-- C2 fails as stated: generate two sections, then navigate back with
`previous` — the content of section 1 is still present although
`step = 0 < 1`. -/
theorem C2_counterexample :
    Reachable ["A", "B"]
      (runCmds ["A", "B"] (init_session_state ["A", "B"])
        [Cmd.start (GenResult.ok "a"), Cmd.next (GenResult.ok "b"),
          Cmd.previous]) ∧
    (runCmds ["A", "B"] (init_session_state ["A", "B"])
      [Cmd.start (GenResult.ok "a"), Cmd.next (GenResult.ok "b"),
        Cmd.previous]).step = 0 ∧
    (runCmds ["A", "B"] (init_session_state ["A", "B"])
      [Cmd.start (GenResult.ok "a"), Cmd.next (GenResult.ok "b"),
        Cmd.previous]).section_contents.getD 1 "" = "b" := by
  refine ⟨?_, by decide, by decide⟩
  exact Reachable.cmd _ _
    (Reachable.cmd _ _
      (Reachable.cmd _ _ Reachable.init (by decide)) (by decide)) (by decide)

/-- C2 amended: at every reachable point, `section_contents[i]` is the
empty string for every index `i` strictly greater than the high-water mark
of `step` (the maximum position reached so far), not the current `step`:
`previous()` navigates back without clearing content, and `reset()` clears
nothing.  The current `step` never exceeds the high-water mark. -/
theorem C2_contents_highwater (sections : List String) (s : AppState)
    (hw : Int) (h : ReachableHW sections s hw) :
    s.step ≤ hw ∧
    ∀ i : Nat, hw < (i : Int) → s.section_contents.getD i "" = "" := by
  induction h with
  | init =>
      refine ⟨le_refl _, fun i _ => ?_⟩
      show (List.replicate sections.length "").getD i "" = ""
      exact getD_replicate _ _
  | edit s hw bn ind cp ps ai hr ih => simpa using ih
  | cmd s hw c hr hcan ih =>
      obtain ⟨ihs, ihc⟩ := ih
      refine ⟨le_max_right _ _, ?_⟩
      intro i hi
      have hiw : hw < (i : Int) := lt_of_le_of_lt (le_max_left _ _) hi
      cases c with
      | start r =>
          have h0 : (0 : Int) < (i : Int) := by
            refine lt_of_le_of_lt ?_ hi
            exact le_trans (le_of_eq rfl) (le_max_right hw _)
          have hne : i ≠ 0 := by omega
          show (s.section_contents.set 0
            (generate_section_content (sections.getD 0 "") s.doc r).text).getD
              i "" = ""
          rw [getD_set_ne _ _ _ _ hne]
          exact ihc i hiw
      | next r =>
          simp only [canRun, Bool.and_eq_true, decide_eq_true_eq] at hcan
          have hstep : s.step + 1 < (i : Int) := by
            refine lt_of_le_of_lt ?_ hi
            exact le_trans (le_of_eq rfl) (le_max_right hw _)
          have hne : i ≠ (s.step + 1).toNat := by omega
          show (s.section_contents.set (s.step + 1).toNat
            (generate_section_content (sections.getD (s.step + 1).toNat "")
              s.doc r).text).getD i "" = ""
          rw [getD_set_ne _ _ _ _ hne]
          exact ihc i hiw
      | previous => exact ihc i hiw
      | complete => exact ihc i hiw
      | reset => exact ihc i hiw

/-- Witness for C2's amended invariant at the freshly initialized state. -/
theorem C2_contents_highwater_witness :
    (init_session_state ["A", "B"]).section_contents.getD 0 "" = "" :=
  (C2_contents_highwater ["A", "B"] (init_session_state ["A", "B"]) (-1)
    ReachableHW.init).2 0 (by decide)

/-- C3 fails as stated: complete a two-section run and press Start Over —
`step` returns to -1, but the generated contents are still stored and the
document still holds the generated sections, so the state is not
observably identical to a freshly constructed one. -/
theorem C3_counterexample :
    Reachable ["A", "B"]
      (runCmds ["A", "B"] (init_session_state ["A", "B"])
        [Cmd.start (GenResult.ok "a"), Cmd.next (GenResult.ok "b"),
          Cmd.complete, Cmd.reset]) ∧
    (runCmds ["A", "B"] (init_session_state ["A", "B"])
      [Cmd.start (GenResult.ok "a"), Cmd.next (GenResult.ok "b"),
        Cmd.complete]).step = ((["A", "B"] : List String).length : Int) ∧
    (runCmds ["A", "B"] (init_session_state ["A", "B"])
      [Cmd.start (GenResult.ok "a"), Cmd.next (GenResult.ok "b"),
        Cmd.complete, Cmd.reset]).step = -1 ∧
    (runCmds ["A", "B"] (init_session_state ["A", "B"])
      [Cmd.start (GenResult.ok "a"), Cmd.next (GenResult.ok "b"),
        Cmd.complete, Cmd.reset]).section_contents.getD 0 "" = "a" ∧
    (runCmds ["A", "B"] (init_session_state ["A", "B"])
      [Cmd.start (GenResult.ok "a"), Cmd.next (GenResult.ok "b"),
        Cmd.complete, Cmd.reset]).doc ≠ (init_session_state ["A", "B"]).doc ∧
    runCmds ["A", "B"] (init_session_state ["A", "B"])
      [Cmd.start (GenResult.ok "a"), Cmd.next (GenResult.ok "b"),
        Cmd.complete, Cmd.reset] ≠ init_session_state ["A", "B"] := by
  refine ⟨?_, by decide, by decide, by decide, by decide, by decide⟩
  exact Reachable.cmd _ _
    (Reachable.cmd _ _
      (Reachable.cmd _ _
        (Reachable.cmd _ _ Reachable.init (by decide)) (by decide))
      (by decide)) (by decide)

/-- C3 amended: invoking `reset()` (Start Over) from the completed state
sets `step` to -1 and changes nothing else — `section_contents`, the
accumulated document and the profile fields all keep their prior values,
so the result coincides with a fresh state only when nothing had been
generated. -/
theorem C3_reset_only_step (sections : List String) (s : AppState)
    (h : canRun sections s Cmd.reset = true) :
    runCmd sections s Cmd.reset = { s with step := -1 } := rfl

/-- Witness for C3's amended claim at a completed two-section run. -/
theorem C3_reset_only_step_witness :
    canRun ["A", "B"]
      (runCmds ["A", "B"] (init_session_state ["A", "B"])
        [Cmd.start (GenResult.ok "a"), Cmd.next (GenResult.ok "b"),
          Cmd.complete]) Cmd.reset = true ∧
    runCmd ["A", "B"]
      (runCmds ["A", "B"] (init_session_state ["A", "B"])
        [Cmd.start (GenResult.ok "a"), Cmd.next (GenResult.ok "b"),
          Cmd.complete]) Cmd.reset =
      { runCmds ["A", "B"] (init_session_state ["A", "B"])
          [Cmd.start (GenResult.ok "a"), Cmd.next (GenResult.ok "b"),
            Cmd.complete] with step := -1 } :=
  ⟨by decide, C3_reset_only_step ["A", "B"] _ (by decide)⟩

/-- C9: `reset()` (Start Over) leaves the captured business profile
unchanged — all five profile fields keep their values, as do the document
and the section contents; only `step` is modified (set to -1). -/
theorem C9_reset_preserves_profile (sections : List String) (s : AppState) :
    (runCmd sections s Cmd.reset).business_name = s.business_name ∧
    (runCmd sections s Cmd.reset).industry = s.industry ∧
    (runCmd sections s Cmd.reset).core_product = s.core_product ∧
    (runCmd sections s Cmd.reset).problem_solved = s.problem_solved ∧
    (runCmd sections s Cmd.reset).additional_info = s.additional_info ∧
    (runCmd sections s Cmd.reset).doc = s.doc ∧
    (runCmd sections s Cmd.reset).section_contents = s.section_contents ∧
    (runCmd sections s Cmd.reset).step = -1 :=
  ⟨rfl, rfl, rfl, rfl, rfl, rfl, rfl, rfl⟩

/-- C7: `previous()` is valid only when `step > 0`; it decrements `step` by
one and changes nothing else — contents, document and profile are all
untouched and no error is surfaced (a pure view change). -/
theorem C7_previous_pure (sections : List String) (s : AppState)
    (h : canRun sections s Cmd.previous = true) :
    0 < s.step ∧
    runCmd sections s Cmd.previous = { s with step := s.step - 1 } ∧
    surfaced sections s Cmd.previous = none := by
  simp only [canRun, Bool.and_eq_true, decide_eq_true_eq] at h
  exact ⟨h.2, rfl, rfl⟩

/-- Witness for C7 after generating two sections (step = 1). -/
theorem C7_previous_pure_witness :
    0 < (runCmds ["A", "B"] (init_session_state ["A", "B"])
      [Cmd.start (GenResult.ok "a"), Cmd.next (GenResult.ok "b")]).step ∧
    runCmd ["A", "B"]
      (runCmds ["A", "B"] (init_session_state ["A", "B"])
        [Cmd.start (GenResult.ok "a"), Cmd.next (GenResult.ok "b")])
      Cmd.previous =
      { runCmds ["A", "B"] (init_session_state ["A", "B"])
          [Cmd.start (GenResult.ok "a"), Cmd.next (GenResult.ok "b")] with
          step :=
            (runCmds ["A", "B"] (init_session_state ["A", "B"])
              [Cmd.start (GenResult.ok "a"),
                Cmd.next (GenResult.ok "b")]).step - 1 } ∧
    surfaced ["A", "B"]
      (runCmds ["A", "B"] (init_session_state ["A", "B"])
        [Cmd.start (GenResult.ok "a"), Cmd.next (GenResult.ok "b")])
      Cmd.previous = none :=
  C7_previous_pure ["A", "B"] _ (by decide)

/-- C6 fails in its profile clause: from the freshly initialized state the
profile is absent (all five fields empty), yet Start is permitted and does
run — `step` moves from -1 to 0, the generated content is stored at slot 0
and appended to the document, so `start()` is not a no-op. -/
theorem C6_counterexample :
    (init_session_state ["A", "B"]).business_name = "" ∧
    (init_session_state ["A", "B"]).industry = "" ∧
    (init_session_state ["A", "B"]).core_product = "" ∧
    (init_session_state ["A", "B"]).problem_solved = "" ∧
    (init_session_state ["A", "B"]).additional_info = "" ∧
    canRun ["A", "B"] (init_session_state ["A", "B"])
      (Cmd.start (GenResult.ok "x")) = true ∧
    (runCmd ["A", "B"] (init_session_state ["A", "B"])
      (Cmd.start (GenResult.ok "x"))).step = 0 ∧
    (runCmd ["A", "B"] (init_session_state ["A", "B"])
      (Cmd.start (GenResult.ok "x"))).section_contents.getD 0 "" = "x" ∧
    docSections (runCmd ["A", "B"] (init_session_state ["A", "B"])
      (Cmd.start (GenResult.ok "x"))).doc = [("A", "x")] := by
  decide

/-- C6 amended: `start()` is valid exactly when `step == -1`; it sets
`step` to 0 and stores the outcome of the generation call for section 0
at slot 0 (the content on success, the empty string on failure, with the
document and surfaced error given by the generation outcome) — it does
this regardless of whether a profile has been captured: the code performs
no profile check, so an absent profile does not make `start()` a no-op. -/
theorem C6_start_always_generates (sections : List String) (s : AppState)
    (r : GenResult) (hlen : 0 < s.section_contents.length) :
    (canRun sections s (Cmd.start r) = true ↔ s.step = -1) ∧
    (runCmd sections s (Cmd.start r)).step = 0 ∧
    (runCmd sections s (Cmd.start r)).section_contents.getD 0 "" =
      (generate_section_content (sections.getD 0 "") s.doc r).text ∧
    (runCmd sections s (Cmd.start r)).doc =
      (generate_section_content (sections.getD 0 "") s.doc r).doc ∧
    surfaced sections s (Cmd.start r) =
      (generate_section_content (sections.getD 0 "") s.doc r).error := by
  refine ⟨?_, rfl, getD_set_self _ _ _ hlen, rfl, rfl⟩
  simp only [canRun, decide_eq_true_eq]

/-- Witness for C6's amended claim at the fresh state with a successful
call. -/
theorem C6_start_always_generates_witness :
    (runCmd ["A", "B"] (init_session_state ["A", "B"])
      (Cmd.start (GenResult.ok "x"))).step = 0 ∧
    (runCmd ["A", "B"] (init_session_state ["A", "B"])
      (Cmd.start (GenResult.ok "x"))).section_contents.getD 0 "" =
      (generate_section_content ((["A", "B"] : List String).getD 0 "")
        (init_session_state ["A", "B"]).doc (GenResult.ok "x")).text :=
  ⟨(C6_start_always_generates ["A", "B"] (init_session_state ["A", "B"])
      (GenResult.ok "x") (by decide)).2.1,
    (C6_start_always_generates ["A", "B"] (init_session_state ["A", "B"])
      (GenResult.ok "x") (by decide)).2.2.1⟩

/-- C10: on every successful generation (via Start at slot 0 or Next at the
new current slot), the string stored in `section_contents` at that slot is
exactly the body of the entry appended to the document, and the entry's
heading is exactly the template name of that section. -/
theorem C10_stored_equals_appended (sections : List String) (s : AppState)
    (c : Cmd) (txt : String) (idx : Nat)
    (hc : c = Cmd.start (GenResult.ok txt) ∧ idx = 0 ∨
          c = Cmd.next (GenResult.ok txt) ∧ idx = (s.step + 1).toNat)
    (hlen : idx < s.section_contents.length) :
    (runCmd sections s c).section_contents.getD idx "" = txt ∧
    (runCmd sections s c).doc =
      s.doc ++
        [DocItem.heading (sections.getD idx "") 1, DocItem.paragraph txt] := by
  rcases hc with ⟨rfl, rfl⟩ | ⟨rfl, rfl⟩ <;>
    exact ⟨getD_set_self _ _ _ hlen, rfl⟩

/-- Witness for C10 with a successful Next from step 0. -/
theorem C10_stored_equals_appended_witness :
    (runCmd ["A", "B"]
      (runCmd ["A", "B"] (init_session_state ["A", "B"])
        (Cmd.start (GenResult.ok "a")))
      (Cmd.next (GenResult.ok "b"))).section_contents.getD 1 "" = "b" ∧
    (runCmd ["A", "B"]
      (runCmd ["A", "B"] (init_session_state ["A", "B"])
        (Cmd.start (GenResult.ok "a")))
      (Cmd.next (GenResult.ok "b"))).doc =
      (runCmd ["A", "B"] (init_session_state ["A", "B"])
        (Cmd.start (GenResult.ok "a"))).doc ++
        [DocItem.heading "B" 1, DocItem.paragraph "b"] :=
  C10_stored_equals_appended ["A", "B"]
    (runCmd ["A", "B"] (init_session_state ["A", "B"])
      (Cmd.start (GenResult.ok "a")))
    (Cmd.next (GenResult.ok "b")) "b" 1 (Or.inr ⟨rfl, by decide⟩) (by decide)

/-- C4 fails in its entry-count clause: regenerate section B (Next after
Previous appends a duplicate document entry), then let the generation for
section C fail — the document holds 3 entries while `step = 2`, so the
entry count is not strictly less than `step + 1`. -/
theorem C4_counterexample :
    Reachable ["A", "B", "C"]
      (runCmds ["A", "B", "C"] (init_session_state ["A", "B", "C"])
        [Cmd.start (GenResult.ok "a"), Cmd.next (GenResult.ok "b"),
          Cmd.previous, Cmd.next (GenResult.ok "b2"),
          Cmd.next (GenResult.err "boom")]) ∧
    surfaced ["A", "B", "C"]
      (runCmds ["A", "B", "C"] (init_session_state ["A", "B", "C"])
        [Cmd.start (GenResult.ok "a"), Cmd.next (GenResult.ok "b"),
          Cmd.previous, Cmd.next (GenResult.ok "b2")])
      (Cmd.next (GenResult.err "boom")) = some "boom" ∧
    (runCmds ["A", "B", "C"] (init_session_state ["A", "B", "C"])
      [Cmd.start (GenResult.ok "a"), Cmd.next (GenResult.ok "b"),
        Cmd.previous, Cmd.next (GenResult.ok "b2"),
        Cmd.next (GenResult.err "boom")]).step = 2 ∧
    (docSections (runCmds ["A", "B", "C"] (init_session_state ["A", "B", "C"])
      [Cmd.start (GenResult.ok "a"), Cmd.next (GenResult.ok "b"),
        Cmd.previous, Cmd.next (GenResult.ok "b2"),
        Cmd.next (GenResult.err "boom")]).doc).length = 3 ∧
    ¬ ((docSections
          (runCmds ["A", "B", "C"] (init_session_state ["A", "B", "C"])
            [Cmd.start (GenResult.ok "a"), Cmd.next (GenResult.ok "b"),
              Cmd.previous, Cmd.next (GenResult.ok "b2"),
              Cmd.next (GenResult.err "boom")]).doc).length : Int) <
        (runCmds ["A", "B", "C"] (init_session_state ["A", "B", "C"])
          [Cmd.start (GenResult.ok "a"), Cmd.next (GenResult.ok "b"),
            Cmd.previous, Cmd.next (GenResult.ok "b2"),
            Cmd.next (GenResult.err "boom")]).step + 1 := by
  refine ⟨?_, by decide, by decide, by decide, by decide⟩
  exact Reachable.cmd _ _
    (Reachable.cmd _ _
      (Reachable.cmd _ _
        (Reachable.cmd _ _
          (Reachable.cmd _ _ Reachable.init (by decide)) (by decide))
        (by decide)) (by decide)) (by decide)

/-- C4 amended: when the generation call fails (via Start or Next), the
controller stores the empty string at the new current slot, appends
nothing to the document (the entry count is unchanged), surfaces the
error message, and the workflow still advances — `step` is incremented by
one and, after a failed Next, backward navigation is permitted. -/
theorem C4_failure_effects (sections : List String) (s : AppState)
    (msg : String) (c : Cmd) (idx : Nat)
    (h : canRun sections s c = true)
    (hc : c = Cmd.start (GenResult.err msg) ∧ idx = 0 ∨
          c = Cmd.next (GenResult.err msg) ∧ idx = (s.step + 1).toNat)
    (hlen : idx < s.section_contents.length) :
    (runCmd sections s c).section_contents.getD idx "" = "" ∧
    (runCmd sections s c).doc = s.doc ∧
    docSections (runCmd sections s c).doc = docSections s.doc ∧
    surfaced sections s c = some msg ∧
    (runCmd sections s c).step = s.step + 1 ∧
    (c = Cmd.next (GenResult.err msg) →
      canRun sections (runCmd sections s c) Cmd.previous = true) := by
  rcases hc with ⟨rfl, rfl⟩ | ⟨rfl, rfl⟩
  · simp only [canRun, decide_eq_true_eq] at h
    refine ⟨getD_set_self _ _ _ hlen, rfl, rfl, rfl, by

      simp only [runCmd, stepCmd]
      omega, by intro hh; cases hh⟩
  · simp only [canRun, Bool.and_eq_true, decide_eq_true_eq] at h
    refine ⟨getD_set_self _ _ _ hlen, rfl, rfl, rfl, rfl, ?_⟩
    intro _
    simp only [canRun, runCmd, stepCmd, Bool.and_eq_true, decide_eq_true_eq]
    refine ⟨⟨?_, ?_⟩, ?_⟩ <;> omega

/-- Witness for C4's amended claim: Start with a failing call at the fresh
state. -/
theorem C4_failure_effects_witness :
    (runCmd ["A", "B"] (init_session_state ["A", "B"])
      (Cmd.start (GenResult.err "boom"))).section_contents.getD 0 "" = "" ∧
    surfaced ["A", "B"] (init_session_state ["A", "B"])
      (Cmd.start (GenResult.err "boom")) = some "boom" :=
  ⟨(C4_failure_effects ["A", "B"] (init_session_state ["A", "B"]) "boom"
      (Cmd.start (GenResult.err "boom")) 0 (by decide) (Or.inl ⟨rfl, rfl⟩)
      (by decide)).1,
    (C4_failure_effects ["A", "B"] (init_session_state ["A", "B"]) "boom"
      (Cmd.start (GenResult.err "boom")) 0 (by decide) (Or.inl ⟨rfl, rfl⟩)
      (by decide)).2.2.2.1⟩

/-- C5 fails as stated: in the N=3 scenario with the regeneration of "B",
the finalized document does not hold 3 entries — regeneration appended a
duplicate, so it holds 4, the stale ("B","textB") among them. -/
theorem C5_counterexample :
    Reachable ["A", "B", "C"]
      (runCmds ["A", "B", "C"] (init_session_state ["A", "B", "C"])
        [Cmd.start (GenResult.ok "textA"), Cmd.next (GenResult.ok "textB"),
          Cmd.previous, Cmd.next (GenResult.ok "textB2"),
          Cmd.next (GenResult.ok "textC"), Cmd.complete]) ∧
    docSections (runCmds ["A", "B", "C"] (init_session_state ["A", "B", "C"])
      [Cmd.start (GenResult.ok "textA"), Cmd.next (GenResult.ok "textB"),
        Cmd.previous, Cmd.next (GenResult.ok "textB2"),
        Cmd.next (GenResult.ok "textC"), Cmd.complete]).doc ≠
      [("A", "textA"), ("B", "textB2"), ("C", "textC")] ∧
    (docSections (runCmds ["A", "B", "C"] (init_session_state ["A", "B", "C"])
      [Cmd.start (GenResult.ok "textA"), Cmd.next (GenResult.ok "textB"),
        Cmd.previous, Cmd.next (GenResult.ok "textB2"),
        Cmd.next (GenResult.ok "textC"), Cmd.complete]).doc).length = 4 := by
  refine ⟨?_, by decide, by decide⟩
  exact Reachable.cmd _ _
    (Reachable.cmd _ _
      (Reachable.cmd _ _
        (Reachable.cmd _ _
          (Reachable.cmd _ _
            (Reachable.cmd _ _ Reachable.init (by decide)) (by decide))
          (by decide)) (by decide)) (by decide)) (by decide)

/-- C5 amended: in the N=3 scenario `start(), next(), previous(), next()
(regenerating "B" as "textB2"), next(), complete()`, the workflow ends at
`step = 3` with `section_contents = ["textA", "textB2", "textC"]` (the
regenerated section holds only its latest content), but the finalized
document holds 4 entries in generation order — ("A","textA"),
("B","textB"), ("B","textB2"), ("C","textC") — because regenerating a
section appends a second entry rather than replacing the first. -/
theorem C5_scenario :
    (runCmds ["A", "B", "C"] (init_session_state ["A", "B", "C"])
      [Cmd.start (GenResult.ok "textA"), Cmd.next (GenResult.ok "textB"),
        Cmd.previous, Cmd.next (GenResult.ok "textB2"),
        Cmd.next (GenResult.ok "textC"), Cmd.complete]).step = 3 ∧
    (runCmds ["A", "B", "C"] (init_session_state ["A", "B", "C"])
      [Cmd.start (GenResult.ok "textA"), Cmd.next (GenResult.ok "textB"),
        Cmd.previous, Cmd.next (GenResult.ok "textB2"),
        Cmd.next (GenResult.ok "textC"), Cmd.complete]).section_contents =
      ["textA", "textB2", "textC"] ∧
    docSections (runCmds ["A", "B", "C"] (init_session_state ["A", "B", "C"])
      [Cmd.start (GenResult.ok "textA"), Cmd.next (GenResult.ok "textB"),
        Cmd.previous, Cmd.next (GenResult.ok "textB2"),
        Cmd.next (GenResult.ok "textC"), Cmd.complete]).doc =
      [("A", "textA"), ("B", "textB"), ("B", "textB2"), ("C", "textC")] := by
  decide

/-- C8 fails at `step = N`: completing a two-section run leaves the
workflow in a reachable state with `step = 2`, where
`calculate_progress = 2/1 = 2`, outside [0, 1]. -/
theorem C8_counterexample :
    Reachable ["A", "B"]
      (runCmds ["A", "B"] (init_session_state ["A", "B"])
        [Cmd.start (GenResult.ok "a"), Cmd.next (GenResult.ok "b"),
          Cmd.complete]) ∧
    (runCmds ["A", "B"] (init_session_state ["A", "B"])
      [Cmd.start (GenResult.ok "a"), Cmd.next (GenResult.ok "b"),
        Cmd.complete]).step = ((["A", "B"] : List String).length : Int) ∧
    calculate_progress ["A", "B"]
      (runCmds ["A", "B"] (init_session_state ["A", "B"])
        [Cmd.start (GenResult.ok "a"), Cmd.next (GenResult.ok "b"),
          Cmd.complete]) = 2 ∧
    ¬ calculate_progress ["A", "B"]
        (runCmds ["A", "B"] (init_session_state ["A", "B"])
          [Cmd.start (GenResult.ok "a"), Cmd.next (GenResult.ok "b"),
            Cmd.complete]) ≤ 1 := by
  have hp : calculate_progress ["A", "B"]
      (runCmds ["A", "B"] (init_session_state ["A", "B"])
        [Cmd.start (GenResult.ok "a"), Cmd.next (GenResult.ok "b"),
          Cmd.complete]) = 2 := by
    norm_num [calculate_progress, runCmds, runCmd, stepCmd,
      init_session_state, generate_section_content]
  refine ⟨?_, by decide, hp, by rw [hp]; norm_num⟩
  exact Reachable.cmd _ _
    (Reachable.cmd _ _
      (Reachable.cmd _ _ Reachable.init (by decide)) (by decide)) (by decide)

/-- C8 amended: `progress()` returns exactly `max(0, step) / (N - 1)`, and
for `step` in {-1, …, N-1} this value lies in [0, 1]; at the completed
state `step = N` it equals `N/(N-1) > 1`, so the range claim holds only
below the completed state. -/
theorem C8_progress_range (sections : List String) (s : AppState)
    (hN : 2 ≤ sections.length) (h1 : -1 ≤ s.step)
    (h2 : s.step ≤ (sections.length : Int) - 1) :
    calculate_progress sections s =
      ((max 0 s.step : Int) : ℚ) / ((sections.length : ℚ) - 1) ∧
    0 ≤ calculate_progress sections s ∧
    calculate_progress sections s ≤ 1 := by
  have hden : (0 : ℚ) < (sections.length : ℚ) - 1 := by
    have h2le : (2 : ℚ) ≤ (sections.length : ℚ) := by exact_mod_cast hN
    linarith
  refine ⟨rfl, ?_, ?_⟩
  · apply div_nonneg _ (le_of_lt hden)
    exact_mod_cast le_max_left 0 s.step
  · show ((max 0 s.step : Int) : ℚ) / ((sections.length : ℚ) - 1) ≤ 1
    rw [div_le_one hden]
    have hmax : (max 0 s.step : Int) ≤ (sections.length : Int) - 1 :=
      max_le (by omega) h2
    calc ((max 0 s.step : Int) : ℚ)
        ≤ (((sections.length : Int) - 1 : Int) : ℚ) := by exact_mod_cast hmax
      _ = (sections.length : ℚ) - 1 := by push_cast; ring

/-- Witness for C8's amended claim at the fresh two-section state. -/
theorem C8_progress_range_witness :
    0 ≤ calculate_progress ["A", "B"] (init_session_state ["A", "B"]) ∧
    calculate_progress ["A", "B"] (init_session_state ["A", "B"]) ≤ 1 :=
  ⟨(C8_progress_range ["A", "B"] (init_session_state ["A", "B"]) (by decide)
      (by decide) (by decide)).2.1,
    (C8_progress_range ["A", "B"] (init_session_state ["A", "B"]) (by decide)
      (by decide) (by decide)).2.2⟩

end BizPlan
